import Mathlib

/-!
# Verification of the mcq-generator retrieval / validation core

Shallow embedding of the deterministic core of the `namberino/mcq-generator`
repository (files `src/validation_scorer.py` and `src/generator.py`) together
with theorems settling the specification claims about it.

Python floats are modelled by `ℚ`; Python dicts that are iterated in insertion
order are modelled by association lists; `None` / missing dicts are modelled by
`Option`.  Definitions follow the Python source line by line; definitions whose
name starts with `spec` instead transcribe the sentence of the specification
they are compared against.
-/

namespace MCQGen

/-! ## Data model (`src/validation_scorer.py`)

A validation record as produced by `RAGMCQ.validate_mcqs` and consumed by
`MCQValidationScorer`.  `model_verdict` is `none` when the key is missing or
the dict is empty (both are falsy in `if not model_verdict`); a present verdict
with an `"error"` key is modelled by `hasError = true`.  Evidence entries only
matter through their `"score"` field (read with `e.get("score", 0.0)`). -/

structure Evidence where
  score : ℚ
  deriving Repr, DecidableEq

structure ModelVerdict where
  hasError : Bool
  supported : Bool
  confidence : ℚ
  deriving Repr, DecidableEq

structure ValidationData where
  max_similarity : ℚ
  supported_by_embeddings : Bool
  evidence : List Evidence
  model_verdict : Option ModelVerdict
  deriving Repr, DecidableEq

/-- The `ValidationConfig` dataclass fields (`src/validation_scorer.py:77-100`),
before the `__post_init__` validation has run. -/
structure ValidationConfig where
  embedding_weight : ℚ := 2/5
  model_weight : ℚ := 1/2
  evidence_weight : ℚ := 1/10
  similarity_threshold : ℚ := 1/2
  evidence_cutoff : ℚ := 1/2
  excellent_threshold : ℚ := 85
  good_threshold : ℚ := 70
  acceptable_threshold : ℚ := 55
  questionable_threshold : ℚ := 40
  deriving Repr, DecidableEq

/-- `ValidationConfig.validate` (`src/validation_scorer.py:106-129`).  Raising
`ValueError` is modelled by `Except.error`; the checks run in source order and
the first failing one reports.  The Python test
`thresholds != sorted(thresholds)` on the four-element list
`[questionable, acceptable, good, excellent]` holds exactly when the chain
`questionable ≤ acceptable ≤ good ≤ excellent` fails, which is how it is
written here. -/
def ValidationConfig.validate (c : ValidationConfig) : Except String Unit :=
  let total_weight := c.embedding_weight + c.model_weight + c.evidence_weight
  if |total_weight - 1| > 1/1000 then
    .error "Weights must sum to 1.0"
  else if ¬ (c.questionable_threshold ≤ c.acceptable_threshold ∧
      c.acceptable_threshold ≤ c.good_threshold ∧
      c.good_threshold ≤ c.excellent_threshold) then
    .error "Thresholds must be in ascending order"
  else if ¬ (0 ≤ c.similarity_threshold ∧ c.similarity_threshold ≤ 1) then
    .error "similarity_threshold must be between 0.0 and 1.0"
  else if ¬ (0 ≤ c.evidence_cutoff ∧ c.evidence_cutoff ≤ 1) then
    .error "evidence_cutoff must be between 0.0 and 1.0"
  else
    .ok ()

/-- Constructing a `ValidationConfig`: `__post_init__`
(`src/validation_scorer.py:102-104`) calls `validate`, so construction returns
the config exactly when `validate` does not raise. -/
def ValidationConfig.construct (c : ValidationConfig) : Except String ValidationConfig := do
  c.validate
  return c

/-! ## `MCQValidationScorer` component scores (`src/validation_scorer.py:147-210`) -/

/-- `_calculate_embedding_score` (`src/validation_scorer.py:177-181`). -/
def calculate_embedding_score (max_similarity : ℚ) (supported_by_embeddings : Bool) : ℚ :=
  let base_score := max_similarity * (7/8)
  let support_bonus := if supported_by_embeddings then 1/8 else 0
  base_score + support_bonus

/-- `_calculate_model_score` (`src/validation_scorer.py:183-195`). -/
def calculate_model_score (model_verdict : Option ModelVerdict) : ℚ :=
  match model_verdict with
  | none => 0
  | some v =>
    if v.hasError then 0
    else if ¬ v.supported then v.confidence * (3/10)
    else 1/2 + v.confidence * (1/2)

/-- `_calculate_evidence_score` (`src/validation_scorer.py:197-210`). -/
def calculate_evidence_score (evidence : List Evidence) : ℚ :=
  if evidence.isEmpty then 0
  else
    let num_evidence : ℚ := evidence.length
    let quantity_score := min (1/2) (num_evidence * (1/8))
    let avg_score := ((evidence.map Evidence.score).sum) / evidence.length
    let quality_score := avg_score * (1/2)
    quantity_score + quality_score

/-- `calculate_validation_score` (`src/validation_scorer.py:147-175`). -/
def calculate_validation_score (cfg : ValidationConfig) (vd : ValidationData) : ℚ :=
  let embedding_score := calculate_embedding_score vd.max_similarity vd.supported_by_embeddings
  let model_score := calculate_model_score vd.model_verdict
  let evidence_score := calculate_evidence_score vd.evidence
  let total_score :=
    embedding_score * cfg.embedding_weight * 100 +
    model_score * cfg.model_weight * 100 +
    evidence_score * cfg.evidence_weight * 100
  min 100 (max 0 total_score)

/-! Spec-side transcription of the claim formula for the validation score:
`100 × (embedding_component × embedding_weight + model_component × model_weight
+ evidence_component × evidence_weight)` clamped to `[0, 100]`, with the three
components as the specification words them. -/

/-- Modelled from the spec sentence: `embedding_component = max_similarity ×
0.875 + (0.125 if supported_by_embeddings else 0)`. -/
def specEmbeddingComponent (vd : ValidationData) : ℚ :=
  vd.max_similarity * (7/8) + (if vd.supported_by_embeddings then 1/8 else 0)

/-- Modelled from the spec sentence: `model_component` is 0 with no verdict or
an error; `confidence × 0.3` if unsupported; `0.5 + confidence × 0.5` if
supported. -/
def specModelComponent (vd : ValidationData) : ℚ :=
  match vd.model_verdict with
  | none => 0
  | some v =>
    if v.hasError then 0
    else if v.supported then 1/2 + v.confidence * (1/2)
    else v.confidence * (3/10)

/-- Modelled from the spec sentence: `evidence_component = min(0.5,
num_evidence × 0.125) + avg(evidence_scores) × 0.5`; 0 if no evidence. -/
def specEvidenceComponent (vd : ValidationData) : ℚ :=
  if vd.evidence = [] then 0
  else
    min (1/2) ((vd.evidence.length : ℚ) * (1/8)) +
      ((vd.evidence.map Evidence.score).sum / (vd.evidence.length : ℚ)) * (1/2)

/-- Modelled from the spec sentence: `total_score = 100 × (embedding_component
× embedding_weight + model_component × model_weight + evidence_component ×
evidence_weight)`, clamped to `[0, 100]`. -/
def specValidationScore (cfg : ValidationConfig) (vd : ValidationData) : ℚ :=
  min 100 (max 0 (100 * (specEmbeddingComponent vd * cfg.embedding_weight +
    specModelComponent vd * cfg.model_weight +
    specEvidenceComponent vd * cfg.evidence_weight)))

/-! ## `RAGMCQ.validate_mcqs` per-question pipeline (`src/generator.py:276-582`)

The numeric outputs of the embedder / cross-encoder / QA collaborators are
external inputs here; the deterministic post-processing the repository performs
on them is embedded below. -/

/-- One retrieved candidate `(idx, score)` with its chunk metadata, as gathered
into `context_parts` (`src/generator.py:392-395`). -/
structure Retrieved where
  idx : Nat
  score : ℚ
  deriving Repr, DecidableEq

/-- The loop of `src/generator.py:399-411`: walk the retrieved candidates once,
appending those with `score >= evidence_score_cutoff` to the evidence list and
keeping a running maximum similarity that starts at `0.0`. -/
def evidenceStep (evidence_score_cutoff : ℚ) (acc : List Retrieved × ℚ)
    (r : Retrieved) : List Retrieved × ℚ :=
  ((if r.score ≥ evidence_score_cutoff then acc.1 ++ [r] else acc.1),
   (if r.score > acc.2 then r.score else acc.2))

def evidenceAndMax (retrieved : List Retrieved) (evidence_score_cutoff : ℚ) :
    List Retrieved × ℚ :=
  retrieved.foldl (evidenceStep evidence_score_cutoff) ([], 0)

/-- `supported_by_embeddings = max_sim >= similarity_threshold`
(`src/generator.py:412`). -/
def supportedByEmbeddings (retrieved : List Retrieved)
    (evidence_score_cutoff similarity_threshold : ℚ) : Bool :=
  (evidenceAndMax retrieved evidence_score_cutoff).2 ≥ similarity_threshold

/-- `context_parts` / `context_text` (`src/generator.py:392-396`): the context
is assembled from every retrieved candidate, with no cutoff filter. -/
def contextParts (retrieved : List Retrieved) : List Retrieved :=
  retrieved.map (fun r => r)

/-- Modelled from the spec sentence of C4: "the maximum similarity over all
retrieved candidates", i.e. the plain maximum of the candidate scores. -/
def specMaxSimilarity (retrieved : List Retrieved) : Option ℚ :=
  (retrieved.map Retrieved.score).max?

/-! ### Distractor diagnostics (`src/generator.py:495-508`) -/

inductive DistractorReason
  | too_similar
  | too_different
  deriving Repr, DecidableEq

structure DistractorFlag where
  key : String
  reason : DistractorReason
  similarity : ℚ
  deriving Repr, DecidableEq

/-- The body of the loop over `distractor_similarities.items()`
(`src/generator.py:498-506`): `continue` when the similarity is `None`, is
`>= 0.999999`, or lies in the band `-0.01 <= sim <= 0`; otherwise flag
`too_similar` when `sim >= distractor_too_similar`, `elif too_different` when
`sim <= distractor_too_different`. -/
def classifyDistractor (distractor_too_similar distractor_too_different : ℚ)
    (e : String × Option ℚ) : Option DistractorFlag :=
  match e with
  | (_, none) => none
  | (k, some sim) =>
    if sim ≥ 999999/1000000 ∨ (sim ≥ -1/100 ∧ sim ≤ 0) then none
    else if sim ≥ distractor_too_similar then
      some ⟨k, .too_similar, sim⟩
    else if sim ≤ distractor_too_different then
      some ⟨k, .too_different, sim⟩
    else none

/-- Penalty added by one loop iteration: `+0.25` per too-similar flag, `+0.15`
per too-different flag (`src/generator.py:503,506`). -/
def distractorContribution (distractor_too_similar distractor_too_different : ℚ)
    (e : String × Option ℚ) : ℚ :=
  match classifyDistractor distractor_too_similar distractor_too_different e with
  | none => 0
  | some f => match f.reason with
    | .too_similar => 1/4
    | .too_different => 3/20

/-- One iteration of the loop of `src/generator.py:498-506`. -/
def distractorStep (distractor_too_similar distractor_too_different : ℚ)
    (acc : List DistractorFlag × ℚ) (e : String × Option ℚ) :
    List DistractorFlag × ℚ :=
  match classifyDistractor distractor_too_similar distractor_too_different e with
  | none => acc
  | some f =>
    (acc.1 ++ [f],
     acc.2 + distractorContribution distractor_too_similar distractor_too_different e)

/-- The whole loop of `src/generator.py:496-506`, accumulating
`distractor_flags` (in iteration order) and the raw `distractor_penalty`. -/
def distractorScan (sims : List (String × Option ℚ))
    (distractor_too_similar distractor_too_different : ℚ) :
    List DistractorFlag × ℚ :=
  sims.foldl (distractorStep distractor_too_similar distractor_too_different) ([], 0)

/-- `distractor_flags` as reported. -/
def distractorFlags (sims : List (String × Option ℚ))
    (distractor_too_similar distractor_too_different : ℚ) : List DistractorFlag :=
  (distractorScan sims distractor_too_similar distractor_too_different).1

/-- `distractor_penalty = min(distractor_penalty, 1.0)` (`src/generator.py:508`). -/
def distractorPenalty (sims : List (String × Option ℚ))
    (distractor_too_similar distractor_too_different : ℚ) : ℚ :=
  min (distractorScan sims distractor_too_similar distractor_too_different).2 1

/-! ### Ambiguity, quality score and triage (`src/generator.py:510-548`) -/

/-- Python `options.get(k, "")` on the options dict, modelled on an
association list in insertion order. -/
def optionsGet (options : List (String × String)) (k : String) : String :=
  match options.find? (fun p => p.1 = k) with
  | some p => p.2
  | none => ""

/-- The ambiguity loop (`src/generator.py:511-519`): only runs when
`entailment_scores` is non-empty; collects the options whose entailment score
reaches `max(correct_entail * 0.9, 0.6)` and whose text differs from the
correct answer's text. -/
def ambiguousOptions (entailment_scores : List (String × ℚ))
    (options : List (String × String)) (correct_text : String)
    (correct_entail : ℚ) : List (String × ℚ) :=
  if entailment_scores.isEmpty then []
  else
    let amb_thresh := max (correct_entail * (9/10)) (3/5)
    entailment_scores.filter
      (fun p => p.2 ≥ amb_thresh ∧ optionsGet options p.1 ≠ correct_text)

/-- `ambiguous = len(ambiguous_options) > 0` (`src/generator.py:519`). -/
def ambiguousFlag (entailment_scores : List (String × ℚ))
    (options : List (String × String)) (correct_text : String)
    (correct_entail : ℚ) : Bool :=
  !(ambiguousOptions entailment_scores options correct_text correct_entail).isEmpty

/-- `quality_score` (`src/generator.py:527-539`): the weighted sum
`0.40·max_sim + 0.35·correct_entail + 0.20·qa_component − 0.05·penalty`
with `qa_component = qa_score if qa_agrees else 0`, clamped to `[0, 1]`. -/
def qualityScore (max_sim correct_entail qa_score : ℚ) (qa_agrees : Bool)
    (distractor_penalty : ℚ) : ℚ :=
  let qa_component := if qa_agrees then qa_score else 0
  let raw := (2/5) * max_sim + (7/20) * correct_entail +
    (1/5) * qa_component - (1/20) * distractor_penalty
  max 0 (min 1 raw)

/-- The triage decision (`src/generator.py:541-548`). -/
def triageAction (quality_score : ℚ) (ambiguous : Bool)
    (auto_accept_threshold review_threshold : ℚ) : String :=
  if quality_score ≥ auto_accept_threshold ∧ ambiguous = false then "pass"
  else if quality_score ≥ review_threshold then "review"
  else "reject"

/-! ## Local retrieval before a successful build (`src/generator.py:52-56,167-179`)

`RAGMCQ.__init__` leaves `self.index = None` and `self.embeddings = None`;
`_retrieve` then dereferences whichever of the two its branch needs.  On a
`None` index the FAISS branch's `self.index.search(...)` raises
`AttributeError`; on `None` embeddings the fallback's `self.embeddings @ qn.T`
raises `TypeError`.  Either way the call fails with an exception instead of
returning; both failures are modelled by `RetrievalError.indexNotReady`. -/

inductive RetrievalError
  | indexNotReady
  deriving Repr, DecidableEq

/-- The two mutable fields `_retrieve` reads; `ι` is the FAISS index handle and
`μ` the brute-force embedding matrix, both abstract here. -/
structure RetrievalState (ι μ : Type) where
  index : Option ι
  embeddings : Option μ

/-- State set up by `RAGMCQ.__init__` (`src/generator.py:52-55`): no index and
no embeddings until a build succeeds. -/
def initialRetrievalState (ι μ : Type) : RetrievalState ι μ :=
  ⟨none, none⟩

/-- `RAGMCQ._retrieve` (`src/generator.py:167-179`).  The query text and `k`
reach the external searchers unchanged; the FAISS branch drops `-1` ids
(`src/generator.py:174`), the numpy branch returns its hits as given. -/
def retrieveLocal {ι μ : Type} (hasFaiss : Bool) (st : RetrievalState ι μ)
    (faissSearch : ι → String → Nat → List (Int × ℚ))
    (bruteSearch : μ → String → Nat → List (Nat × ℚ))
    (query : String) (top_k : Nat) : Except RetrievalError (List (Int × ℚ)) :=
  if hasFaiss then
    match st.index with
    | none => .error .indexNotReady
    | some ix => .ok ((faissSearch ix query top_k).filter (fun p => p.1 ≠ -1))
  else
    match st.embeddings with
    | none => .error .indexNotReady
    | some e => .ok ((bruteSearch e query top_k).map (fun p => ((p.1 : Int), p.2)))

/-! ## RAG-sampled generation loops (`src/generator.py:223-272` and
`src/generator.py:878-917`)

Both loops keep `attempts` and the accumulated output; each iteration samples
a seed sentence, then makes one generation call (abstracted as `gen`, indexed
by the attempt number before the increment), which either fails (`none`, the
`except` branch that logs and continues) or returns a block of questions that
are appended one by one with an early return once `qcount >= n_questions`.
The `while` guard `qcount < n_questions and attempts < max_attempts` is
realised by running with fuel `max_attempts - attempts`.

The two loops differ in the seed-selection step.  In `generate_from_qdrant`
(`src/generator.py:884-893`) it is total: `random.choice` runs only under
`if candidate:` and otherwise the first 200 characters of the chunk (or a
placeholder) are used, so the seed only influences the generation call and is
absorbed into `gen`; `ragLoopGo` below is exact for that loop.  In
`generate_from_pdf` (`src/generator.py:233-241`) the seed selection can raise,
which `ragLoopGoPdf` further below models. -/

def ragLoopGo {α : Type} (gen : Nat → Option (List α)) (n_questions : Nat) :
    Nat → Nat → List α → List α × Nat
  | 0, attempts, output => (output, attempts)
  | fuel + 1, attempts, output =>
    if n_questions ≤ output.length then (output, attempts)
    else
      match gen attempts with
      | none => ragLoopGo gen n_questions fuel (attempts + 1) output
      | some block =>
        let output2 := output ++ block.take (n_questions - output.length)
        if n_questions ≤ output2.length then (output2, attempts + 1)
        else ragLoopGo gen n_questions fuel (attempts + 1) output2

/-- The `mode == "rag"` branch of `generate_from_qdrant`: `attempts = 0`,
`max_attempts = n_questions * 4`, then the while loop; returns the accumulated
output (keyed densely `1..qcount` in Python, a list here) together with the
number of attempts consumed. -/
def ragGenerate {α : Type} (gen : Nat → Option (List α)) (n_questions : Nat) :
    List α × Nat :=
  ragLoopGo gen n_questions (n_questions * 4) 0 []

/-- Python `str.strip()`: drop whitespace from both ends. -/
def pyStrip (s : String) : String :=
  ⟨((s.data.dropWhile Char.isWhitespace).reverse.dropWhile
      Char.isWhitespace).reverse⟩

/-- The abort of the `generate_from_pdf` RAG loop: the uncaught `IndexError`
raised by `random.choice([])` at `src/generator.py:241`. -/
inductive RagAbort
  | indexErrorFromEmptyChoice
  deriving Repr, DecidableEq

instance {ε α : Type} [DecidableEq ε] [DecidableEq α] :
    DecidableEq (Except ε α) := fun x y =>
  match x, y with
  | .error u, .error v => if h : u = v then isTrue (by rw [h]) else isFalse (by simp [h])
  | .error _, .ok _ => isFalse (by simp)
  | .ok _, .error _ => isFalse (by simp)
  | .ok u, .ok v => if h : u = v then isTrue (by rw [h]) else isFalse (by simp [h])

/-- Seed selection of one `generate_from_pdf` RAG attempt
(`src/generator.py:233-241`), given the `re.split` fragments of the chunk
sampled at that attempt:
`random.choice([s for s in sents if len(s.strip()) > 20]) if sents else
chunk[:200]`.  Python `re.split` always returns at least one element, so
`sents` is always truthy and the `chunk[:200]` branch is unreachable;
`random.choice` then raises an uncaught `IndexError` when no fragment is
longer than 20 characters once stripped — the surrounding `try` only wraps
the generation call (`src/generator.py:255-263`).  Which qualifying fragment
is chosen otherwise does not matter: the seed only feeds the retrieval query
and the generation call, both absorbed into the generation oracle, so success
carries no data. -/
def pdfSeedStep (sents : List String) : Except RagAbort Unit :=
  if sents.isEmpty then .ok ()
  else if (sents.filter (fun s => 20 < (pyStrip s).length)).isEmpty then
    .error .indexErrorFromEmptyChoice
  else .ok ()

/-- The `mode == "rag"` loop of `generate_from_pdf`
(`src/generator.py:227-272`): as `ragLoopGo`, but every iteration first runs
seed selection on the fragments of the chunk sampled at that attempt
(`sents`, indexed like `gen` by the attempt number before the increment), and
an `IndexError` there aborts the whole call. -/
def ragLoopGoPdf {α : Type} (sents : Nat → List String)
    (gen : Nat → Option (List α)) (n_questions : Nat) :
    Nat → Nat → List α → Except RagAbort (List α × Nat)
  | 0, attempts, output => .ok (output, attempts)
  | fuel + 1, attempts, output =>
    if n_questions ≤ output.length then .ok (output, attempts)
    else
      match pdfSeedStep (sents attempts) with
      | .error e => .error e
      | .ok _ =>
        match gen attempts with
        | none => ragLoopGoPdf sents gen n_questions fuel (attempts + 1) output
        | some block =>
          let output2 := output ++ block.take (n_questions - output.length)
          if n_questions ≤ output2.length then .ok (output2, attempts + 1)
          else ragLoopGoPdf sents gen n_questions fuel (attempts + 1) output2

/-- `generate_from_pdf(mode="rag")` after the index build: `attempts = 0`,
`max_attempts = n_questions * 4`, then the loop. -/
def ragGenerateFromPdf {α : Type} (sents : Nat → List String)
    (gen : Nat → Option (List α)) (n_questions : Nat) :
    Except RagAbort (List α × Nat) :=
  ragLoopGoPdf sents gen n_questions (n_questions * 4) 0 []

/-! ## Batch processing (`src/validation_scorer.py:212-423`) -/

/-- `get_validation_category` (`src/validation_scorer.py:212-228`), category
name only. -/
def getValidationCategory (cfg : ValidationConfig) (score : ℚ) : String :=
  if score ≥ cfg.excellent_threshold then "EXCELLENT"
  else if score ≥ cfg.good_threshold then "GOOD"
  else if score ≥ cfg.acceptable_threshold then "ACCEPTABLE"
  else if score ≥ cfg.questionable_threshold then "QUESTIONABLE"
  else "POOR"

structure Decision where
  decision : String
  priority : String
  score : ℚ
  category : String
  deriving Repr, DecidableEq

/-- `model_verdict.get("supported", False)` as used by
`make_quality_decision` (`src/validation_scorer.py:266`). -/
def verdictSupported (mv : Option ModelVerdict) : Bool :=
  match mv with
  | none => false
  | some v => v.supported

/-- `model_verdict.get("confidence", 0)` (`src/validation_scorer.py:266`). -/
def verdictConfidence (mv : Option ModelVerdict) : ℚ :=
  match mv with
  | none => 0
  | some v => v.confidence

/-- `make_quality_decision` (`src/validation_scorer.py:230-303`): the decision
ladder over the score bands; in the ACCEPTABLE band it additionally branches on
`supported` and `confidence >= 0.8` of the model verdict. -/
def makeQualityDecision (cfg : ValidationConfig) (vd : ValidationData) : Decision :=
  let score := calculate_validation_score cfg vd
  let category := getValidationCategory cfg score
  if score ≥ cfg.excellent_threshold then
    ⟨"APPROVE", "LOW", score, category⟩
  else if score ≥ cfg.good_threshold then
    ⟨"APPROVE_WITH_REVIEW", "LOW", score, category⟩
  else if score ≥ cfg.acceptable_threshold then
    if verdictSupported vd.model_verdict ∧ verdictConfidence vd.model_verdict ≥ 4/5 then
      ⟨"CONDITIONAL_APPROVE", "MEDIUM", score, category⟩
    else
      ⟨"REVIEW_REQUIRED", "HIGH", score, category⟩
  else if score ≥ cfg.questionable_threshold then
    ⟨"REJECT_WITH_FEEDBACK", "HIGH", score, category⟩
  else
    ⟨"REJECT", "CRITICAL", score, category⟩

/-- Python's `needle in haystack` on lists of characters: some contiguous run
of `haystack` equals `needle`. -/
def listHasRun {α : Type} [DecidableEq α] : List α → List α → Bool
  | needle, [] => needle.isEmpty
  | needle, a :: t => needle.isPrefixOf (a :: t) || listHasRun needle t

/-- Python's `sub in s` on strings. -/
def strHasRun (s sub : String) : Bool :=
  listHasRun sub.toList s.toList

/-- The decision-family tally of `process_batch_validation`
(`src/validation_scorer.py:358-367`): substring tests on the lower-cased
decision name pick the bucket. -/
def decisionBucket (decision : String) : String :=
  let decision_type := decision.toLower
  if strHasRun decision_type "approve" ∧ ¬ strHasRun decision_type "conditional" then
    "approved"
  else if strHasRun decision_type "conditional" then "conditional"
  else if strHasRun decision_type "review" then "review_required"
  else "rejected"

structure BatchSummary where
  total : Nat
  approved : Nat
  conditional : Nat
  review_required : Nat
  rejected : Nat
  average_score : ℚ
  deriving Repr, DecidableEq

structure Recommendation where
  rec_type : String
  severity : String
  deriving Repr, DecidableEq

structure QualityMetrics where
  pass_rate : ℚ
  high_quality_rate : ℚ
  needs_attention : List String
  deriving Repr, DecidableEq

structure BatchResults where
  processed : List (String × Decision)
  summary : BatchSummary
  metrics : QualityMetrics
  recommendations : List Recommendation
  deriving Repr, DecidableEq

/-- Accumulator state of the per-question loop
(`src/validation_scorer.py:334-367`). -/
structure BatchAcc where
  processed : List (String × Decision)
  scores : List ℚ
  total : Nat
  approved : Nat
  conditional : Nat
  review_required : Nat
  rejected : Nat
  deriving Repr, DecidableEq

def emptyBatchAcc : BatchAcc := ⟨[], [], 0, 0, 0, 0, 0⟩

/-- One iteration of the loop over `mcqs_with_validation["validation"].items()`
(`src/validation_scorer.py:338-367`): skip ids with no matching MCQ, otherwise
score, decide and tally. -/
def batchStep (cfg : ValidationConfig) (mcqKeys : List String)
    (acc : BatchAcc) (entry : String × ValidationData) : BatchAcc :=
  if entry.1 ∉ mcqKeys then acc
  else
    let dec := makeQualityDecision cfg entry.2
    let bucket := decisionBucket dec.decision
    { processed := acc.processed ++ [(entry.1, dec)]
      scores := acc.scores ++ [dec.score]
      total := acc.total + 1
      approved := acc.approved + (if bucket = "approved" then 1 else 0)
      conditional := acc.conditional + (if bucket = "conditional" then 1 else 0)
      review_required := acc.review_required + (if bucket = "review_required" then 1 else 0)
      rejected := acc.rejected + (if bucket = "rejected" then 1 else 0) }

/-- Checked division, to model Python's `ZeroDivisionError`: dividing by zero
is an error, never a silent result. -/
def divCheck (a b : ℚ) : Except String ℚ :=
  if b = 0 then .error "division by zero" else .ok (a / b)

/-- `_generate_recommendations` (`src/validation_scorer.py:392-423`), keeping
type and severity of each recommendation; the three checks are independent and
appended in source order. -/
def generateRecommendations (pass_rate high_quality_rate : ℚ)
    (rejected total : Nat) : List Recommendation :=
  (if pass_rate < 1/2 then [⟨"QUALITY_CONCERN", "HIGH"⟩] else []) ++
  (if high_quality_rate > 4/5 then [⟨"EXCELLENT_QUALITY", "INFO"⟩] else []) ++
  (if (rejected : ℚ) > (total : ℚ) * (3/10) then
    [⟨"HIGH_REJECTION_RATE", "MEDIUM"⟩] else [])

/-- `process_batch_validation` (`src/validation_scorer.py:305-390`): run the
per-question loop, then — only when at least one score was collected — compute
the average, the pass/high-quality rates (each division guarded by
`total > 0`) and the needs-attention list; finally generate recommendations.
The `validation` mapping is its association list in insertion order, the
`mcqs` mapping is represented by its key list. -/
def processBatchValidation (cfg : ValidationConfig) (mcqKeys : List String)
    (validation : List (String × ValidationData)) : Except String BatchResults := do
  let acc := validation.foldl (batchStep cfg mcqKeys) emptyBatchAcc
  if acc.scores.isEmpty then
    let summary : BatchSummary :=
      ⟨acc.total, acc.approved, acc.conditional, acc.review_required, acc.rejected, 0⟩
    let metrics : QualityMetrics := ⟨0, 0, []⟩
    let recs := generateRecommendations metrics.pass_rate metrics.high_quality_rate
      summary.rejected summary.total
    return ⟨acc.processed, summary, metrics, recs⟩
  else
    let average ← divCheck acc.scores.sum (acc.scores.length : ℚ)
    let passed := acc.approved + acc.conditional
    let pass_rate ← if 0 < acc.total then divCheck (passed : ℚ) (acc.total : ℚ) else pure 0
    let high_quality_rate ← if 0 < acc.total then
        divCheck (acc.approved : ℚ) (acc.total : ℚ) else pure 0
    let needs_attention := (acc.processed.filter
      (fun p => p.2.priority = "HIGH" ∨ p.2.priority = "CRITICAL")).map Prod.fst
    let summary : BatchSummary :=
      ⟨acc.total, acc.approved, acc.conditional, acc.review_required, acc.rejected, average⟩
    let metrics : QualityMetrics := ⟨pass_rate, high_quality_rate, needs_attention⟩
    let recs := generateRecommendations pass_rate high_quality_rate
      summary.rejected summary.total
    return ⟨acc.processed, summary, metrics, recs⟩

/-! ## Theorems -/

/-- The model component computed by the scorer agrees with the specification's
case split (the source tests `if not supported` first, the spec words the
supported case first). -/
theorem calculate_model_score_eq_spec (vd : ValidationData) :
    calculate_model_score vd.model_verdict = specModelComponent vd := by
  unfold calculate_model_score specModelComponent
  cases vd.model_verdict with
  | none => rfl
  | some v =>
    cases hs : v.supported <;> simp [hs]

/-- The evidence component computed by the scorer agrees with the
specification's formula. -/
theorem calculate_evidence_score_eq_spec (vd : ValidationData) :
    calculate_evidence_score vd.evidence = specEvidenceComponent vd := by
  unfold calculate_evidence_score specEvidenceComponent
  cases vd.evidence with
  | nil => simp
  | cons a t => simp

/-- C1: for every validation record, `calculate_validation_score` returns
`100 × (embedding_component × embedding_weight + model_component × model_weight
+ evidence_component × evidence_weight)` clamped to `[0, 100]`, with
`embedding_component = max_similarity × 0.875 + (0.125 iff supported)`,
`model_component` 0 on a missing/error verdict, `confidence × 0.3` when
unsupported and `0.5 + confidence × 0.5` when supported, and
`evidence_component` 0 on empty evidence and otherwise
`min(0.5, n × 0.125) + avg × 0.5`. -/
theorem calculate_validation_score_spec (cfg : ValidationConfig) (vd : ValidationData) :
    calculate_validation_score cfg vd = specValidationScore cfg vd := by
  simp only [calculate_validation_score, specValidationScore]
  rw [show calculate_embedding_score vd.max_similarity vd.supported_by_embeddings
      = specEmbeddingComponent vd from rfl,
    calculate_model_score_eq_spec, calculate_evidence_score_eq_spec]
  congr 1
  congr 1
  ring

/-- C3: constructing a `ValidationConfig` succeeds exactly when the weights sum
to 1 within `1e-3`, the four category thresholds are non-decreasing in the
order questionable ≤ acceptable ≤ good ≤ excellent, and both
`similarity_threshold` and `evidence_cutoff` lie in `[0, 1]`; otherwise
`__post_init__` raises at construction time. -/
theorem validation_config_construct_iff (c : ValidationConfig) :
    c.construct = .ok c ↔
      (|c.embedding_weight + c.model_weight + c.evidence_weight - 1| ≤ 1/1000 ∧
       c.questionable_threshold ≤ c.acceptable_threshold ∧
       c.acceptable_threshold ≤ c.good_threshold ∧
       c.good_threshold ≤ c.excellent_threshold ∧
       0 ≤ c.similarity_threshold ∧ c.similarity_threshold ≤ 1 ∧
       0 ≤ c.evidence_cutoff ∧ c.evidence_cutoff ≤ 1) := by
  simp only [ValidationConfig.construct, ValidationConfig.validate, bind, Except.bind]
  split_ifs with h1 h2 h3 h4
  · -- the weight check raised
    simp only [reduceCtorEq, false_iff]
    intro hc
    exact absurd hc.1 (not_le.mpr h1)
  · -- every check passed
    exact iff_of_true rfl
      ⟨le_of_not_lt h1, h2.1, h2.2.1, h2.2.2, h3.1, h3.2, h4.1, h4.2⟩
  · -- the evidence_cutoff range check raised
    simp only [reduceCtorEq, false_iff]
    intro hc
    exact h4 ⟨hc.2.2.2.2.2.2.1, hc.2.2.2.2.2.2.2⟩
  · -- the similarity_threshold range check raised
    simp only [reduceCtorEq, false_iff]
    intro hc
    exact h3 ⟨hc.2.2.2.2.1, hc.2.2.2.2.2.1⟩
  · -- the threshold ordering check raised
    simp only [reduceCtorEq, false_iff]
    intro hc
    exact h2 ⟨hc.2.1, hc.2.2.1, hc.2.2.2.1⟩

/-- C7: querying the local retrieval layer before any successful build — the
state `RAGMCQ.__init__` leaves behind — fails with the index-not-ready error
on both the FAISS branch and the brute-force branch, for every query and `k`;
it never returns a result. -/
theorem retrieve_before_build_fails (ι μ : Type) (hasFaiss : Bool)
    (faissSearch : ι → String → Nat → List (Int × ℚ))
    (bruteSearch : μ → String → Nat → List (Nat × ℚ))
    (query : String) (top_k : Nat) :
    retrieveLocal hasFaiss (initialRetrievalState ι μ) faissSearch bruteSearch query top_k
      = .error .indexNotReady := by
  cases hasFaiss <;> rfl

/-- When every generation call fails, the RAG loop wastes each attempt: from an
empty output it returns an empty output after consuming all remaining fuel. -/
theorem ragLoopGo_all_fail {α : Type} (gen : Nat → Option (List α)) (n : Nat)
    (hn : 1 ≤ n) (hfail : ∀ i, gen i = none) :
    ∀ fuel attempts, ragLoopGo gen n fuel attempts [] = ([], attempts + fuel) := by
  intro fuel
  induction fuel with
  | zero => intro attempts; simp [ragLoopGo]
  | succ m ih =>
    intro attempts
    rw [ragLoopGo]
    simp only [List.length_nil, hfail attempts]
    rw [if_neg (by omega)]
    rw [ih (attempts + 1)]
    congr 1
    omega

/-- The `generate_from_qdrant` RAG loop in which every generation call fails
terminates after exactly `n_questions * 4` attempts with an empty result, for
every requested count `n ≥ 1` — there the seed selection is total, so the
loop neither hangs nor raises and exhausting the attempt budget returns the
(here empty) partial output. -/
theorem rag_generate_all_fail {α : Type} (gen : Nat → Option (List α))
    (n : Nat) (hn : 1 ≤ n) (hfail : ∀ i, gen i = none) :
    ragGenerate gen n = ([], n * 4) := by
  unfold ragGenerate
  rw [ragLoopGo_all_fail gen n hn hfail (n * 4) 0]
  simp

/-- The previous theorem at the batch size the spec quotes:
`requested_count = 5`, every call failing, stops after exactly 20 attempts
with an empty result. -/
theorem rag_generate_all_fail_witness :
    1 ≤ 5 ∧ ragGenerate (fun _ => (none : Option (List Nat))) 5 = ([], 20) :=
  ⟨by decide, rag_generate_all_fail (fun _ => none) 5 (by decide) (fun _ => rfl)⟩

/-- When seed selection succeeds on every attempt, the `generate_from_pdf`
loop behaves like the `generate_from_qdrant` one: with every generation call
failing it consumes all remaining fuel from an empty output and returns an
empty output. -/
theorem ragLoopGoPdf_all_fail {α : Type} (sents : Nat → List String)
    (gen : Nat → Option (List α)) (n : Nat) (hn : 1 ≤ n)
    (hseed : ∀ i, pdfSeedStep (sents i) = .ok ())
    (hfail : ∀ i, gen i = none) :
    ∀ fuel attempts,
      ragLoopGoPdf sents gen n fuel attempts [] = .ok ([], attempts + fuel) := by
  intro fuel
  induction fuel with
  | zero => intro attempts; simp [ragLoopGoPdf]
  | succ m ih =>
    intro attempts
    rw [ragLoopGoPdf]
    simp only [List.length_nil, hseed attempts, hfail attempts]
    rw [if_neg (by omega)]
    rw [ih (attempts + 1)]
    congr 2
    omega

/-- Provided every sampled chunk has a fragment longer than 20 characters once
stripped, `generate_from_pdf` with all generation calls failing does stop
after exactly `n * 4` attempts with an empty result. -/
theorem rag_generate_pdf_all_fail {α : Type} (sents : Nat → List String)
    (gen : Nat → Option (List α)) (n : Nat) (hn : 1 ≤ n)
    (hseed : ∀ i, pdfSeedStep (sents i) = .ok ())
    (hfail : ∀ i, gen i = none) :
    ragGenerateFromPdf sents gen n = .ok ([], n * 4) := by
  unfold ragGenerateFromPdf
  rw [ragLoopGoPdf_all_fail sents gen n hn hseed hfail (n * 4) 0]
  simp

/-- C8: evaluation of `generate_from_pdf` at the failing input.  With
`n_questions = 1` and the sampled chunk `"Hi."` — whose only `re.split`
fragment has 3 ≤ 20 characters once stripped — seed selection raises the
uncaught `IndexError` of `random.choice([])` on the very first attempt and
the call aborts, instead of completing the `4 × 1` attempt budget and
returning an empty mapping as the claim requires.  The 200-character fallback
the spec mandates is dead code in `generate_from_pdf`: it is guarded by
`if sents`, and Python `re.split` never returns an empty list.
`generate_from_qdrant` implements the fallback and satisfies the claim
(`rag_generate_all_fail`). -/
theorem rag_pdf_seed_crash :
    ragGenerateFromPdf (fun _ => ["Hi."]) (fun _ => (none : Option (List Nat))) 1 =
      .error .indexErrorFromEmptyChoice := by
  decide

/-- The evidence list accumulated by the loop is the cutoff filter of the
retrieved candidates, in retrieval order. -/
theorem foldl_evidenceStep_fst (cutoff : ℚ) :
    ∀ (l : List Retrieved) (acc : List Retrieved × ℚ),
      (l.foldl (evidenceStep cutoff) acc).1 =
        acc.1 ++ l.filter (fun r => cutoff ≤ r.score) := by
  intro l
  induction l with
  | nil => intro acc; simp
  | cons r t ih =>
    intro acc
    rw [List.foldl_cons, ih]
    by_cases h : cutoff ≤ r.score
    · simp [evidenceStep, ge_iff_le, h, List.filter_cons, List.append_assoc]
    · simp [evidenceStep, ge_iff_le, h, List.filter_cons]

/-- The running maximum accumulated by the loop is the max-fold of the scores
over the initial accumulator value. -/
theorem foldl_evidenceStep_snd (cutoff : ℚ) :
    ∀ (l : List Retrieved) (acc : List Retrieved × ℚ),
      (l.foldl (evidenceStep cutoff) acc).2 =
        (l.map Retrieved.score).foldl max acc.2 := by
  intro l
  induction l with
  | nil => intro acc; simp
  | cons r t ih =>
    intro acc
    rw [List.foldl_cons, ih]
    have : (evidenceStep cutoff acc r).2 = max acc.2 r.score := by
      simp only [evidenceStep]
      rcases le_or_lt r.score acc.2 with h | h
      · rw [if_neg (not_lt.mpr h), max_eq_left h]
      · rw [if_pos h, max_eq_right (le_of_lt h)]
    rw [this, List.map_cons, List.foldl_cons]

theorem evidenceAndMax_fst (retrieved : List Retrieved) (cutoff : ℚ) :
    (evidenceAndMax retrieved cutoff).1 =
      retrieved.filter (fun r => cutoff ≤ r.score) := by
  unfold evidenceAndMax
  rw [foldl_evidenceStep_fst]
  rfl

theorem evidenceAndMax_snd (retrieved : List Retrieved) (cutoff : ℚ) :
    (evidenceAndMax retrieved cutoff).2 =
      (retrieved.map Retrieved.score).foldl max 0 := by
  unfold evidenceAndMax
  rw [foldl_evidenceStep_snd]

/-- C4 (amended): a retrieved candidate scoring below `evidence_score_cutoff`
is excluded from the reported evidence list but still appears among the context
parts the verifiers read; and `supported_by_embeddings` is true iff the maximum
of `0` and all candidate scores (the loop's running maximum starts at `0.0`)
reaches `similarity_threshold`. -/
theorem evidence_cutoff_and_support (retrieved : List Retrieved)
    (cutoff threshold : ℚ) (r : Retrieved) (hr : r ∈ retrieved)
    (hlow : r.score < cutoff) :
    r ∉ (evidenceAndMax retrieved cutoff).1 ∧
    r ∈ contextParts retrieved ∧
    (supportedByEmbeddings retrieved cutoff threshold = true ↔
      threshold ≤ (retrieved.map Retrieved.score).foldl max 0) := by
  refine ⟨?_, ?_, ?_⟩
  · rw [evidenceAndMax_fst]
    intro hmem
    have h2 := (List.mem_filter.mp hmem).2
    rw [decide_eq_true_eq] at h2
    exact absurd h2 (not_le.mpr hlow)
  · simpa [contextParts] using hr
  · unfold supportedByEmbeddings
    rw [decide_eq_true_eq, evidenceAndMax_snd]

/-- Witness for the amended C4 at a concrete retrieval: candidate `⟨0, 1/4⟩`
is below the cutoff `1/2`, stays out of the evidence list, stays in the
context, and support is equivalent to the floored maximum reaching the
threshold. -/
theorem evidence_cutoff_and_support_witness :
    ((⟨0, 1/4⟩ : Retrieved) ∈ ([⟨0, 1/4⟩, ⟨1, 3/4⟩] : List Retrieved)) ∧
    ((1/4 : ℚ) < 1/2) ∧
    ((⟨0, 1/4⟩ : Retrieved) ∉ (evidenceAndMax [⟨0, 1/4⟩, ⟨1, 3/4⟩] (1/2)).1 ∧
     (⟨0, 1/4⟩ : Retrieved) ∈ contextParts [⟨0, 1/4⟩, ⟨1, 3/4⟩] ∧
     (supportedByEmbeddings [⟨0, 1/4⟩, ⟨1, 3/4⟩] (1/2) (1/2) = true ↔
       (1/2 : ℚ) ≤ (([⟨0, 1/4⟩, ⟨1, 3/4⟩] : List Retrieved).map
          Retrieved.score).foldl max 0)) :=
  ⟨List.mem_cons_self _ _, by norm_num,
   evidence_cutoff_and_support [⟨0, 1/4⟩, ⟨1, 3/4⟩] (1/2) (1/2) ⟨0, 1/4⟩
     (List.mem_cons_self _ _) (by norm_num)⟩

/-- C4 counterexample to the claim as stated: with a single retrieved candidate
of (negative) similarity `-1/2` and `similarity_threshold = 0`, the code
reports `supported_by_embeddings = true` (its running maximum starts at `0.0`),
although the maximum similarity over all retrieved candidates, `-1/2`, is not
at least the threshold. -/
theorem evidence_support_claim_counterexample :
    supportedByEmbeddings [⟨0, -(1/2)⟩] (1/2) 0 = true ∧
    specMaxSimilarity [⟨0, -(1/2)⟩] = some (-(1/2)) ∧
    ¬ ((0 : ℚ) ≤ -(1/2)) := by
  refine ⟨?_, by rfl, by norm_num⟩
  simp only [supportedByEmbeddings, evidenceAndMax, evidenceStep, List.foldl,
    decide_eq_true_eq]
  norm_num

/-- The distractor loop is the filterMap of the per-entry classification
paired with the sum of the per-entry penalty contributions. -/
theorem foldl_distractorStep (a b : ℚ) :
    ∀ (l : List (String × Option ℚ)) (acc : List DistractorFlag × ℚ),
      l.foldl (distractorStep a b) acc =
        (acc.1 ++ l.filterMap (classifyDistractor a b),
         acc.2 + (l.map (distractorContribution a b)).sum) := by
  intro l
  induction l with
  | nil => intro acc; simp
  | cons e t ih =>
    intro acc
    rw [List.foldl_cons, ih]
    cases hc : classifyDistractor a b e with
    | none =>
      simp [distractorStep, distractorContribution, hc]
    | some f =>
      simp [distractorStep, distractorContribution, hc, List.filterMap_cons,
        List.append_assoc, add_assoc]

theorem distractorScan_eq (sims : List (String × Option ℚ)) (a b : ℚ) :
    distractorScan sims a b =
      (sims.filterMap (classifyDistractor a b),
       (sims.map (distractorContribution a b)).sum) := by
  unfold distractorScan
  rw [foldl_distractorStep]
  simp

/-- Inversion of the per-entry classification: a produced flag carries the
entry's key and similarity, the entry passed the skip conditions, and the
reason records which threshold branch fired. -/
theorem classifyDistractor_some (a b : ℚ) (e : String × Option ℚ)
    (f : DistractorFlag) (h : classifyDistractor a b e = some f) :
    e.1 = f.key ∧ e.2 = some f.similarity ∧
    ¬ (f.similarity ≥ 999999/1000000 ∨
        (f.similarity ≥ -1/100 ∧ f.similarity ≤ 0)) ∧
    ((f.reason = DistractorReason.too_similar ∧ a ≤ f.similarity) ∨
     (f.reason = DistractorReason.too_different ∧ f.similarity < a ∧
       f.similarity ≤ b)) := by
  obtain ⟨k, o⟩ := e
  cases o with
  | none => simp [classifyDistractor] at h
  | some s =>
    simp only [classifyDistractor] at h
    by_cases h1 : (s ≥ 999999/1000000 ∨ (s ≥ -1/100 ∧ s ≤ 0))
    · rw [if_pos h1] at h
      exact absurd h (by simp)
    rw [if_neg h1] at h
    by_cases h2 : s ≥ a
    · rw [if_pos h2] at h
      obtain rfl := Option.some.inj h
      exact ⟨rfl, rfl, h1, Or.inl ⟨rfl, h2⟩⟩
    rw [if_neg h2] at h
    by_cases h3 : s ≤ b
    · rw [if_pos h3] at h
      obtain rfl := Option.some.inj h
      exact ⟨rfl, rfl, h1, Or.inr ⟨rfl, not_le.mp h2, h3⟩⟩
    · rw [if_neg h3] at h
      exact absurd h (by simp)

/-- The accumulated raw penalty is `0.25` per too-similar flag plus `0.15` per
too-different flag. -/
theorem contribution_sum (a b : ℚ) :
    ∀ (l : List (String × Option ℚ)),
      (l.map (distractorContribution a b)).sum =
        (1/4) * (((l.filterMap (classifyDistractor a b)).filter
            (fun f => f.reason = DistractorReason.too_similar)).length : ℚ) +
        (3/20) * (((l.filterMap (classifyDistractor a b)).filter
            (fun f => f.reason = DistractorReason.too_different)).length : ℚ) := by
  intro l
  induction l with
  | nil => simp
  | cons e t ih =>
    rw [List.map_cons, List.sum_cons, List.filterMap_cons]
    cases hc : classifyDistractor a b e with
    | none =>
      simp only [distractorContribution, hc]
      rw [zero_add, ih]
    | some f =>
      obtain ⟨fk, fr, fs⟩ := f
      cases fr with
      | too_similar =>
        have hcontrib : distractorContribution a b e = 1/4 := by
          simp [distractorContribution, hc]
        rw [hcontrib]
        simp [List.filter_cons, ih]
        ring
      | too_different =>
        have hcontrib : distractorContribution a b e = 3/20 := by
          simp [distractorContribution, hc]
        rw [hcontrib]
        simp [List.filter_cons, ih]
        ring

/-- C5 (amended): for an option whose computed similarity `s` to the correct
answer is neither a near-identical (self) match (`s ≥ 0.999999`) nor in the
skipped band `[-0.01, 0]`, the flag with reason `too_similar` is reported iff
`s ≥ distractor_too_similar`, the flag with reason `too_different` is reported
iff `s ≤ distractor_too_different` (the thresholds being in their default
order `too_different < too_similar`), and the distractor penalty is `0.25` per
too-similar flag plus `0.15` per too-different flag, capped at `1.0`. -/
theorem distractor_flags_spec (sims : List (String × Option ℚ))
    (tooSim tooDiff : ℚ) (hth : tooDiff < tooSim) (k : String) (s : ℚ)
    (hmem : (k, some s) ∈ sims) (hself : s < 999999/1000000)
    (hband : ¬ ((-1/100 : ℚ) ≤ s ∧ s ≤ 0)) :
    ((⟨k, .too_similar, s⟩ : DistractorFlag) ∈
        distractorFlags sims tooSim tooDiff ↔ tooSim ≤ s) ∧
    ((⟨k, .too_different, s⟩ : DistractorFlag) ∈
        distractorFlags sims tooSim tooDiff ↔ s ≤ tooDiff) ∧
    distractorPenalty sims tooSim tooDiff =
      min ((1/4) * (((distractorFlags sims tooSim tooDiff).filter
            (fun f => f.reason = DistractorReason.too_similar)).length : ℚ) +
          (3/20) * (((distractorFlags sims tooSim tooDiff).filter
            (fun f => f.reason = DistractorReason.too_different)).length : ℚ)) 1 := by
  have hflags : distractorFlags sims tooSim tooDiff =
      sims.filterMap (classifyDistractor tooSim tooDiff) := by
    unfold distractorFlags
    rw [distractorScan_eq]
  have hexcl : ¬ (s ≥ 999999/1000000 ∨ (s ≥ -1/100 ∧ s ≤ 0)) := by
    intro hor
    rcases hor with h | h
    · exact absurd h (not_le.mpr hself)
    · exact hband h
  refine ⟨?_, ?_, ?_⟩
  · rw [hflags]
    constructor
    · intro hin
      obtain ⟨e, _, hc⟩ := List.mem_filterMap.mp hin
      obtain ⟨-, -, -, hcase⟩ := classifyDistractor_some _ _ _ _ hc
      rcases hcase with ⟨-, hge⟩ | ⟨hr, -, -⟩
      · exact hge
      · exact absurd hr (by simp)
    · intro hge
      refine List.mem_filterMap.mpr ⟨(k, some s), hmem, ?_⟩
      simp only [classifyDistractor]
      rw [if_neg hexcl, if_pos hge]
  · rw [hflags]
    constructor
    · intro hin
      obtain ⟨e, _, hc⟩ := List.mem_filterMap.mp hin
      obtain ⟨-, -, -, hcase⟩ := classifyDistractor_some _ _ _ _ hc
      rcases hcase with ⟨hr, -⟩ | ⟨-, -, hle⟩
      · exact absurd hr (by simp)
      · exact hle
    · intro hle
      refine List.mem_filterMap.mpr ⟨(k, some s), hmem, ?_⟩
      have hlt : s < tooSim := lt_of_le_of_lt hle hth
      simp only [classifyDistractor]
      rw [if_neg hexcl, if_neg (not_le.mpr hlt), if_pos hle]
  · unfold distractorPenalty
    rw [distractorScan_eq, hflags, contribution_sum]

/-- Witness for the amended C5 at a concrete similarity `0.9` against the
default thresholds `0.8` / `0.15`. -/
theorem distractor_flags_spec_witness :
    ((3/20 : ℚ) < 4/5) ∧
    (("A", some ((9/10) : ℚ)) ∈ [("A", some ((9/10) : ℚ))]) ∧
    ((9/10 : ℚ) < 999999/1000000) ∧
    (¬ ((-1/100 : ℚ) ≤ (9/10 : ℚ) ∧ (9/10 : ℚ) ≤ 0)) ∧
    (((⟨"A", .too_similar, 9/10⟩ : DistractorFlag) ∈
        distractorFlags [("A", some (9/10))] (4/5) (3/20) ↔ (4/5 : ℚ) ≤ 9/10) ∧
     ((⟨"A", .too_different, 9/10⟩ : DistractorFlag) ∈
        distractorFlags [("A", some (9/10))] (4/5) (3/20) ↔ (9/10 : ℚ) ≤ 3/20) ∧
     distractorPenalty [("A", some (9/10))] (4/5) (3/20) =
       min ((1/4) * (((distractorFlags [("A", some (9/10))] (4/5) (3/20)).filter
             (fun f => f.reason = DistractorReason.too_similar)).length : ℚ) +
           (3/20) * (((distractorFlags [("A", some (9/10))] (4/5) (3/20)).filter
             (fun f => f.reason = DistractorReason.too_different)).length : ℚ)) 1) :=
  ⟨by norm_num, List.mem_cons_self _ _, by norm_num, by norm_num,
   distractor_flags_spec [("A", some (9/10))] (4/5) (3/20) (by norm_num) "A" (9/10)
     (List.mem_cons_self _ _) (by norm_num) (by norm_num)⟩

/-- C5 counterexample to the claim as stated: an option with similarity
`-0.005` to the correct answer is not a near-identical self match and has
similarity below `distractor_too_different = 0.15`, yet the code reports no
flag at all for it (the loop also skips any similarity in `[-0.01, 0]`, an
exclusion the claim does not allow for). -/
theorem distractor_flags_claim_counterexample :
    distractorFlags [("A", some (-(1/200)))] (4/5) (3/20) = [] ∧
    (-(1/200) : ℚ) ≤ 3/20 ∧ (-(1/200) : ℚ) < 999999/1000000 := by
  refine ⟨?_, by norm_num, by norm_num⟩
  unfold distractorFlags
  rw [distractorScan_eq]
  have hnone : classifyDistractor (4/5) (3/20) ("A", some (-(1/200))) = none := by
    simp only [classifyDistractor]
    rw [if_pos (Or.inr ⟨by norm_num, by norm_num⟩)]
  show List.filterMap _ _ = []
  rw [List.filterMap_cons, hnone]
  rfl

/-- The triage ladder, case by case: `pass` exactly on a high enough score
with no ambiguity, `review` exactly when that fails but the review threshold
is met, `reject` otherwise. -/
theorem triageAction_cases (qs : ℚ) (amb : Bool) (auto review : ℚ) :
    (triageAction qs amb auto review = "pass" ↔ qs ≥ auto ∧ amb = false) ∧
    (triageAction qs amb auto review = "review" ↔
      ¬ (qs ≥ auto ∧ amb = false) ∧ qs ≥ review) ∧
    (triageAction qs amb auto review = "reject" ↔
      ¬ (qs ≥ auto ∧ amb = false) ∧ ¬ (qs ≥ review)) := by
  unfold triageAction
  by_cases h1 : qs ≥ auto ∧ amb = false
  · rw [if_pos h1]
    exact ⟨iff_of_true rfl h1,
      iff_of_false (by decide) (fun hc => hc.1 h1),
      iff_of_false (by decide) (fun hc => hc.1 h1)⟩
  · rw [if_neg h1]
    by_cases h2 : qs ≥ review
    · rw [if_pos h2]
      exact ⟨iff_of_false (by decide) h1,
        iff_of_true rfl ⟨h1, h2⟩,
        iff_of_false (by decide) (fun hc => hc.2 h2)⟩
    · rw [if_neg h2]
      exact ⟨iff_of_false (by decide) h1,
        iff_of_false (by decide) (fun hc => h2 hc.2),
        iff_of_true rfl ⟨h1, h2⟩⟩

/-- C2: the quality score is the clamped weighted sum
`0.40·max_sim + 0.35·correct_entail + 0.20·(qa_score if qa_agrees else 0)
− 0.05·distractor_penalty`; the question is ambiguous iff some entailment-scored
option other than the correct one reaches `max(correct_entail × 0.9, 0.6)`;
and the triage action is `pass` iff the score reaches `auto_accept_threshold`
and the question is not ambiguous, otherwise `review` iff the score reaches
`review_threshold`, otherwise `reject`. -/
theorem quality_and_triage_spec (max_sim correct_entail qa_score : ℚ)
    (qa_agrees : Bool) (distractor_penalty : ℚ)
    (entailment_scores : List (String × ℚ)) (options : List (String × String))
    (correct_text : String) (auto_accept_threshold review_threshold : ℚ) :
    qualityScore max_sim correct_entail qa_score qa_agrees distractor_penalty =
      max 0 (min 1 ((2/5) * max_sim + (7/20) * correct_entail +
        (1/5) * (if qa_agrees then qa_score else 0) -
        (1/20) * distractor_penalty)) ∧
    (ambiguousFlag entailment_scores options correct_text correct_entail = true ↔
      ∃ p ∈ entailment_scores,
        max (correct_entail * (9/10)) (3/5) ≤ p.2 ∧
        optionsGet options p.1 ≠ correct_text) ∧
    (triageAction
        (qualityScore max_sim correct_entail qa_score qa_agrees distractor_penalty)
        (ambiguousFlag entailment_scores options correct_text correct_entail)
        auto_accept_threshold review_threshold = "pass" ↔
      qualityScore max_sim correct_entail qa_score qa_agrees distractor_penalty ≥
          auto_accept_threshold ∧
      ambiguousFlag entailment_scores options correct_text correct_entail = false) ∧
    (triageAction
        (qualityScore max_sim correct_entail qa_score qa_agrees distractor_penalty)
        (ambiguousFlag entailment_scores options correct_text correct_entail)
        auto_accept_threshold review_threshold = "review" ↔
      ¬ (qualityScore max_sim correct_entail qa_score qa_agrees distractor_penalty ≥
            auto_accept_threshold ∧
         ambiguousFlag entailment_scores options correct_text correct_entail = false) ∧
      qualityScore max_sim correct_entail qa_score qa_agrees distractor_penalty ≥
        review_threshold) ∧
    (triageAction
        (qualityScore max_sim correct_entail qa_score qa_agrees distractor_penalty)
        (ambiguousFlag entailment_scores options correct_text correct_entail)
        auto_accept_threshold review_threshold = "reject" ↔
      ¬ (qualityScore max_sim correct_entail qa_score qa_agrees distractor_penalty ≥
            auto_accept_threshold ∧
         ambiguousFlag entailment_scores options correct_text correct_entail = false) ∧
      ¬ (qualityScore max_sim correct_entail qa_score qa_agrees distractor_penalty ≥
            review_threshold)) := by
  obtain ⟨h1, h2, h3⟩ := triageAction_cases
    (qualityScore max_sim correct_entail qa_score qa_agrees distractor_penalty)
    (ambiguousFlag entailment_scores options correct_text correct_entail)
    auto_accept_threshold review_threshold
  refine ⟨rfl, ?_, h1, h2, h3⟩
  by_cases hE : entailment_scores.isEmpty
  · have : entailment_scores = [] := List.isEmpty_iff.mp hE
    subst this
    simp [ambiguousFlag, ambiguousOptions]
  · simp only [ambiguousFlag, ambiguousOptions, if_neg hE]
    simp [and_assoc]

/-- C9: `process_batch_validation` on an empty validation mapping returns
(rather than raising, in particular no division by zero) a report whose batch
summary has `total = 0` and whose quality metrics keep the defaults
`pass_rate = 0` and `high_quality_rate = 0`. -/
theorem process_batch_empty_validation (cfg : ValidationConfig)
    (mcqKeys : List String) :
    ∃ r : BatchResults,
      processBatchValidation cfg mcqKeys [] = .ok r ∧
      r.summary.total = 0 ∧ r.metrics.pass_rate = 0 ∧
      r.metrics.high_quality_rate = 0 := by
  refine ⟨⟨[], ⟨0, 0, 0, 0, 0, 0⟩, ⟨0, 0, []⟩, [⟨"QUALITY_CONCERN", "HIGH"⟩]⟩,
    ?_, rfl, rfl, rfl⟩
  unfold processBatchValidation
  norm_num [emptyBatchAcc, generateRecommendations]
  rfl

/-- A batch loop pass over validation entries none of which has a matching MCQ
key leaves the accumulator untouched (`continue` on every iteration). -/
theorem batch_foldl_no_match (cfg : ValidationConfig) (mcqKeys : List String) :
    ∀ (validation : List (String × ValidationData)) (acc : BatchAcc),
      (∀ p ∈ validation, p.1 ∉ mcqKeys) →
      validation.foldl (batchStep cfg mcqKeys) acc = acc := by
  intro validation
  induction validation with
  | nil => intro acc _; rfl
  | cons p t ih =>
    intro acc h
    rw [List.foldl_cons]
    rw [show batchStep cfg mcqKeys acc p = acc from
      if_pos (h p (List.mem_cons_self _ _))]
    exact ih acc (fun q hq => h q (List.mem_cons_of_mem _ hq))

/-- C10: whenever zero questions are processed — the validation mapping is
empty or no validation key matches an MCQ key — the returned recommendations
contain a HIGH-severity QUALITY_CONCERN entry, because the `pass_rate < 0.5`
check fires on the default pass rate of `0.0` even though `total = 0`. -/
theorem empty_batch_quality_concern (cfg : ValidationConfig)
    (mcqKeys : List String) (validation : List (String × ValidationData))
    (h : ∀ p ∈ validation, p.1 ∉ mcqKeys) :
    ∃ r : BatchResults,
      processBatchValidation cfg mcqKeys validation = .ok r ∧
      (⟨"QUALITY_CONCERN", "HIGH"⟩ : Recommendation) ∈ r.recommendations := by
  refine ⟨⟨[], ⟨0, 0, 0, 0, 0, 0⟩, ⟨0, 0, []⟩, [⟨"QUALITY_CONCERN", "HIGH"⟩]⟩,
    ?_, List.mem_singleton.mpr rfl⟩
  unfold processBatchValidation
  rw [batch_foldl_no_match cfg mcqKeys validation emptyBatchAcc h]
  norm_num [emptyBatchAcc, generateRecommendations]
  rfl

/-- Witness for C10 at a concrete batch: one validation record whose key
`"q1"` has no matching MCQ (the only MCQ key is `"q2"`). -/
theorem empty_batch_quality_concern_witness :
    (∀ p ∈ [(("q1" : String), (⟨0, false, [], none⟩ : ValidationData))],
      p.1 ∉ (["q2"] : List String)) ∧
    ∃ r : BatchResults,
      processBatchValidation {} ["q2"]
        [("q1", (⟨0, false, [], none⟩ : ValidationData))] = .ok r ∧
      (⟨"QUALITY_CONCERN", "HIGH"⟩ : Recommendation) ∈ r.recommendations :=
  ⟨by simp, empty_batch_quality_concern {} ["q2"]
    [("q1", ⟨0, false, [], none⟩)] (by simp)⟩

end MCQGen
